import Mathlib

/-!
# Verification of the kivg animation core

Shallow embedding of the kivg library's arithmetic and state-machine kernels,
translated from the Python sources:

* `kivg/path_utils.py` — coordinate mapping, cubic-bezier sampling, `find_center`;
* `kivg/animation/easing.py` — the `AnimationTransition` easing catalog;
* `kivg/drawing/pen_tracker.py` — the `PenTracker` state machine;
* `kivg/main.py` — the multi-shape session state (`anim_on_comp` / `track_progress`);
* `kivg/text_to_svg.py` — per-character id numbering of the SVG generator and the
  animation-config generator.

Python floats are modelled by exact rationals (`ℚ`) except where a claim hinges on
IEEE-754 binary64 rounding, for which an explicit round-to-nearest-even model of
normal-range doubles is provided.  Transcendental easing formulas are modelled
over `ℝ`.  Python exceptions are modelled with `Except`.
-/

namespace Kivg

/-- Python exceptions that the coordinate-mapping code can raise.  `ZeroDivisionError`
is what Python raises on float division by zero; `ConfigurationError` is the error
class named by the specification (it does not occur in the source). -/
inductive PyErr where
  | zeroDivisionError
  | configurationError
deriving DecidableEq, Repr

/-- `transform_x` from `kivg/path_utils.py`:
`return target_x + target_width * x_pos / svg_width`.
A zero `svg_width` makes the Python division raise `ZeroDivisionError`, modelled by
the explicit guard. -/
def transform_x (x_pos target_x target_width svg_width : ℚ) : Except PyErr ℚ :=
  if svg_width = 0 then .error .zeroDivisionError
  else .ok (target_x + target_width * x_pos / svg_width)

/-- `transform_y` from `kivg/path_utils.py`:
`if flip_y: return target_y + target_height * (svg_height - y_pos) / svg_height`
`return target_y + target_height * y_pos / svg_height`.
A zero `svg_height` makes the Python division raise `ZeroDivisionError`. -/
def transform_y (y_pos target_y target_height svg_height : ℚ) (flip_y : Bool) :
    Except PyErr ℚ :=
  if svg_height = 0 then .error .zeroDivisionError
  else if flip_y then .ok (target_y + target_height * (svg_height - y_pos) / svg_height)
  else .ok (target_y + target_height * y_pos / svg_height)

/-- `transform_point` from `kivg/path_utils.py`: builds
`[transform_x(p.real, tx, w, sw), transform_y(p.imag, ty, h, sh, flip_y)]`.
The complex point is modelled as a real/imaginary pair; Python evaluates the
`transform_x` element first, so its exception takes precedence. -/
def transform_point (p : ℚ × ℚ) (target_size target_pos svg_size : ℚ × ℚ)
    (flip_y : Bool) : Except PyErr (ℚ × ℚ) := do
  let x ← transform_x p.1 target_pos.1 target_size.1 svg_size.1
  let y ← transform_y p.2 target_pos.2 target_size.2 svg_size.2 flip_y
  pure (x, y)

/-- Python `int()` truncation toward zero, on an exact rational. -/
def pyTrunc (q : ℚ) : ℤ :=
  if 0 ≤ q then ⌊q⌋ else -⌊-q⌋

/-- Python list indexing `l[i]`, including negative indices counting from the end.
An out-of-range access (which raises `IndexError` in Python and is outside every
claim considered here) is modelled by the default value `0`. -/
def pyIndex (l : List ℚ) (i : ℤ) : ℚ :=
  if 0 ≤ i then l.getD i.toNat 0 else l.getD (l.length - (-i).toNat) 0

/-- Python `x % 2` for a nonnegative float `x`: `x - 2 * floor(x / 2)`. -/
def pyMod2 (q : ℚ) : ℚ :=
  q - 2 * ⌊q / 2⌋

/-- `find_center` from `kivg/path_utils.py`:
`middle = float(len(sorted_list)) / 2`;
`if middle % 2 != 0: return sorted_list[int(middle - 0.5)]`
`else: return (sorted_list[int(middle)] + sorted_list[int(middle - 1)]) / 2`. -/
def find_center (sorted_list : List ℚ) : ℚ :=
  let middle : ℚ := (sorted_list.length : ℚ) / 2
  if pyMod2 middle ≠ 0 then
    pyIndex sorted_list (pyTrunc (middle - 1/2))
  else
    (pyIndex sorted_list (pyTrunc middle) + pyIndex sorted_list (pyTrunc (middle - 1))) / 2

/-! ## Cubic-bezier sampling (`kivg/path_utils.py`)

`get_all_points` flattens `segments` into `seg = 1 / segments`, starts `t = 0` and,
`while t <= 1`, appends the Bernstein-weighted x and y coordinates and does
`t += seg`.  Two models are given: an exact-arithmetic one over `ℚ`, and the
parameter sequence of the very same loop under IEEE-754 binary64 arithmetic
(which is what Python floats compute with). -/

/-- Bernstein polynomial `B0_t = lambda t: (1 - t) ** 3` from `kivg/path_utils.py`. -/
def B0_t (t : ℚ) : ℚ := (1 - t) ^ 3

/-- Bernstein polynomial `B1_t = lambda t: 3 * t * (1 - t) ** 2`. -/
def B1_t (t : ℚ) : ℚ := 3 * t * (1 - t) ^ 2

/-- Bernstein polynomial `B2_t = lambda t: 3 * t**2 * (1 - t)`. -/
def B2_t (t : ℚ) : ℚ := 3 * t ^ 2 * (1 - t)

/-- Bernstein polynomial `B3_t = lambda t: t**3`. -/
def B3_t (t : ℚ) : ℚ := t ^ 3

/-- One Bernstein-weighted coordinate,
`(B0_t(t) * a) + (B1_t(t) * b) + (B2_t(t) * c) + (B3_t(t) * d)`. -/
def bernPoint (a b c d t : ℚ) : ℚ :=
  B0_t t * a + B1_t t * b + B2_t t * c + B3_t t * d

/-- The `while t <= 1` loop of `get_all_points` under exact arithmetic.  The loop
body appends the x and y coordinates at `t` and advances `t` by `seg`; `fuel`
bounds the number of iterations of the Python `while` (the loop exits by its own
condition before the fuel runs out whenever `fuel ≥ segments + 2`). -/
def gapLoop (ax ay bx bY cx cy dx dy seg : ℚ) : ℕ → ℚ → List ℚ
  | 0, _ => []
  | fuel + 1, t =>
    if t ≤ 1 then
      bernPoint ax bx cx dx t :: bernPoint ay bY cy dy t ::
        gapLoop ax ay bx bY cx cy dx dy seg fuel (t + seg)
    else []

/-- `get_all_points` from `kivg/path_utils.py` under exact arithmetic:
`seg = 1 / segments; t = 0; while t <= 1: points.extend([x(t), y(t)]); t += seg`. -/
def get_all_points (start control1 control2 endp : ℚ × ℚ) (segments : ℕ := 40) :
    List ℚ :=
  gapLoop start.1 start.2 control1.1 control1.2 control2.1 control2.2 endp.1 endp.2
    (1 / (segments : ℚ)) (segments + 2) 0

/-- Modelled from the spec: the sampler the specification describes, which
evaluates the Bernstein weights at `t = i/N` for `i` in `0..=N` computed
directly rather than by accumulating a float step. -/
def specDirectSample (start control1 control2 endp : ℚ × ℚ) (segments : ℕ) :
    List ℚ :=
  (List.range (segments + 1)).flatMap fun i =>
    [bernPoint start.1 control1.1 control2.1 endp.1 ((i : ℚ) / (segments : ℚ)),
     bernPoint start.2 control1.2 control2.2 endp.2 ((i : ℚ) / (segments : ℚ))]

/-! ### IEEE-754 binary64 model (normal range)

Enough of binary64 round-to-nearest-even arithmetic to run the `t += seg`
accumulation of `get_all_points` exactly as CPython executes it (Python floats
are binary64).  With `d` the smallest exponent such that `segments ≤ 2^d`, every
double produced by the loop — the values `0`, `seg = fl(1/segments)`, and the
accumulated sums, all lying in `{0} ∪ [2^(-d), 2]` — is an integer multiple of
`2^(-52-d)`, so doubles are represented as natural-number multiples `u` of that
ulp: the value is `u / 2^(52+d)`.  All operations are then natural-number
computations, which the kernel evaluates directly. -/

/-- Smallest `d ≤ fuel` with `n ≤ 2^d` (ceiling of the base-2 logarithm). -/
def ceilLog2 : ℕ → ℕ → ℕ
  | 0, _ => 0
  | fuel + 1, n => if n ≤ 1 then 0 else ceilLog2 fuel ((n + 1) / 2) + 1

/-- Number of binary digits of `n` (`0` for `n = 0`). -/
def bitLen : ℕ → ℕ → ℕ
  | 0, _ => 0
  | fuel + 1, n => if n = 0 then 0 else bitLen fuel (n / 2) + 1

/-- `a / b` rounded to the nearest integer, ties to even. -/
def natDivRNE (a b : ℕ) : ℕ :=
  let q := a / b
  let r := a % b
  if 2 * r < b then q
  else if b < 2 * r then q + 1
  else if q % 2 = 0 then q else q + 1

/-- Round the exact value `u / 2^sexp` to the nearest binary64 value (round to
nearest, ties to even), returned on the same `2^(-sexp)` grid.  Values below
`2^53` ulps are exactly representable; larger ones have their excess low bits
rounded away.  Faithful for the normal range, which covers every value the
sampling loop produces. -/
def roundAtScale (u : ℕ) : ℕ :=
  if u < 2 ^ 53 then u
  else
    let k := bitLen 200 u - 53
    natDivRNE u (2 ^ k) * 2 ^ k

/-- One binary64 addition of the loop, on the scaled representation:
the exact sum of two representable values, rounded. -/
def floatAdd (u v : ℕ) : ℕ := roundAtScale (u + v)

/-- The loop-control of `get_all_points` under binary64 arithmetic: the sequence
of `t` values (scaled by `2^sexp`) actually sampled by
`while t <= 1: ...; t += seg`.  Each sampled `t` contributes exactly one `(x, y)`
point (two floats) to the result, so the length of this list is the number of
points the Python function returns. -/
def floatLoopTs (sexp seg : ℕ) : ℕ → ℕ → List ℕ
  | 0, _ => []
  | fuel + 1, u =>
    if u ≤ 2 ^ sexp then u :: floatLoopTs sexp seg fuel (floatAdd u seg) else []

/-- The `t` values sampled by `get_all_points` for a given `segments` count, as
CPython computes them, scaled by `2^(52 + ceilLog2 segments)`:
`seg = 1 / segments` computed in binary64 (correctly rounded division), then `t`
accumulated in binary64.  The sampled parameter values themselves are
`u / 2^(52 + ceilLog2 segments)` for `u` in this list. -/
def get_all_points_ts (segments : ℕ) : List ℕ :=
  let d := ceilLog2 200 segments
  floatLoopTs (52 + d) (natDivRNE (2 ^ (52 + d)) segments) (segments + 2) 0

/-! ### Binary64 endpoint evaluation of the back easings

The endpoints of `in_back`/`out_back` from `kivg/animation/easing.py` involve
only basic IEEE arithmetic on the literal `1.70158` — no library transcendental
calls — so their binary64 values are fully determined and can be computed
exactly.  Doubles in `[1, 4)` are represented as integer multiples of `2^-52`
(for `[2, 4)` the ulp is `2^-51`, i.e. an even multiple). -/

/-- `fl(1.70158)`: the binary64 value of the decimal literal
`1.70158 = 85079/50000` used by `in_back`/`out_back`, as a multiple of `2^-52`
(the value lies in `[1, 2)`); round to nearest, ties to even. -/
def backConst : ℕ := natDivRNE (85079 * 2 ^ 52) 50000

/-- `fl(1.70158 + 1.0)`: the sum lies in `[2, 4)` where the ulp is `2^-51`, so
the exact sum `backConst + 2^52` on the `2^-52` grid is rounded to an even
multiple of `2` (round to nearest, ties to even). -/
def backConstPlusOne : ℕ := natDivRNE (backConst + 2 ^ 52) 2 * 2

/-- `in_back(1.0)` evaluated in binary64, scaled by `2^52`:
`progress * progress * ((1.70158 + 1.0) * progress - 1.70158)` at `progress = 1.0`
is `1.0 * (fl(1.70158 + 1.0) * 1.0 - fl(1.70158))` — the multiplications by `1.0`
are exact, and the subtraction of two floats within a factor of two of each other
is exact by Sterbenz's lemma (the result, near `1`, sits on the `2^-52` grid) —
so the only roundings are those inside `backConst` and `backConstPlusOne`. -/
def in_back_fl1 : ℕ := backConstPlusOne - backConst

/-- `out_back(0.0)` evaluated in binary64, scaled by `2^52`: with `p = -1.0`
(exact), `p * p * ((1.70158 + 1) * p + 1.70158) + 1.0` is
`1.0 * (fl(1.70158) - fl(1.70158 + 1.0)) + 1.0`; the inner subtraction is exact
by Sterbenz's lemma and the final addition of `1.0` to a value in `(-1, -1/2]`
is again exact by Sterbenz's lemma, leaving `2^52 - in_back_fl1` on the
`2^-52` grid. -/
def out_back_fl0 : ℕ := 2 ^ 52 - in_back_fl1

/-! ## Multi-shape session state (`kivg/main.py`)

`Kivg.shape_animate` resets `curr_count = 0`, `prev_shapes = []`, `curr_shape = []`
and starts the first animation.  While a shape's animation runs, `track_progress`
recomputes `curr_shape`; when it completes, `anim_on_comp` increments the counter,
appends `curr_shape` to `prev_shapes` and starts the next animation.  The payload
type of a shape (its color plus collected point list) is abstracted as `α`. -/

/-- The mutable session state of `kivg/main.py` relevant to shape accumulation. -/
structure Session (α : Type) where
  currCount : ℕ
  prevShapes : List α
  currShape : α

/-- `track_progress` from `kivg/main.py`: recomputes the active shape's data and
stores it in `curr_shape` (the canvas redraw does not change session state). -/
def track_progress {α : Type} (s : Session α) (shape : α) : Session α :=
  { s with currShape := shape }

/-- `anim_on_comp` from `kivg/main.py`: `self.curr_count += 1` and
`self.prev_shapes.append(self.curr_shape)` (then rebinds and starts the next
animation, which does not touch the session lists). -/
def anim_on_comp {α : Type} (s : Session α) : Session α :=
  { s with currCount := s.currCount + 1, prevShapes := s.prevShapes ++ [s.currShape] }

/-- An observable event delivered to the session: a progress tick for the active
shape (carrying the freshly computed shape data) or the completion of the active
shape's animation. -/
inductive SessionEvent (α : Type) where
  | progress (shape : α)
  | complete

/-- Dispatch of one event to the session handlers of `kivg/main.py`. -/
def sessionStep {α : Type} (s : Session α) : SessionEvent α → Session α
  | .progress shape => track_progress s shape
  | .complete => anim_on_comp s

/-- The event trace of one shape completing normally: at least one progress tick,
the last of which carries the shape's final data `x`, followed by the completion
event of that shape's animation. -/
def shapeTrace {α : Type} (pre : List α) (x : α) : List (SessionEvent α) :=
  (pre ++ [x]).map .progress ++ [.complete]

/-- Folding a list of session events through the session handlers. -/
def sessionFold {α : Type} (s : Session α) (es : List (SessionEvent α)) : Session α :=
  es.foldl sessionStep s

/-- The event trace of a whole multi-shape session: each queued shape in order
contributes its progress ticks (ending with its final data) and its completion
event. -/
def multiShapeTrace {α : Type} (shapes : List (List α × α)) : List (SessionEvent α) :=
  shapes.flatMap fun pr => shapeTrace pr.1 pr.2

/-! ## Per-character id numbering (`kivg/text_to_svg.py`)

`text_to_svg_paths` walks each line keeping `non_space_char_idx`: a space advances
the x position only (`continue`), every other character is looked up in the font,
emits a `<path id="char_{line}_{idx}">` element when its glyph path is nonempty,
and increments the index whether or not a path was emitted.
`get_text_animation_config` walks each line keeping `char_idx`: every non-space
character emits a config entry with id `char_{line}_{idx}` and increments.
The glyph lookup (an external font collaborator) is abstracted as a predicate
`hasGlyph` telling whether `get_glyph_path` returns a nonempty path string. -/

/-- Ids `(index, character)` of the `<path>` elements that `text_to_svg_paths`
emits for one line, starting at index `idx`. -/
def svgCharIds (hasGlyph : Char → Bool) : List Char → ℕ → List (ℕ × Char)
  | [], _ => []
  | c :: cs, idx =>
    if c = ' ' then svgCharIds hasGlyph cs idx
    else if hasGlyph c then (idx, c) :: svgCharIds hasGlyph cs (idx + 1)
    else svgCharIds hasGlyph cs (idx + 1)

/-- Ids `(index, character)` of the entries that `get_text_animation_config`
emits for one line, starting at index `idx`. -/
def configCharIds : List Char → ℕ → List (ℕ × Char)
  | [], _ => []
  | c :: cs, idx =>
    if c = ' ' then configCharIds cs idx
    else (idx, c) :: configCharIds cs (idx + 1)

/-- All `<path>` ids `((line, index), character)` emitted by `text_to_svg_paths`
for a text already split into lines (Python `text.split('\n')`). -/
def svgIdsLines (hasGlyph : Char → Bool) : List (List Char) → ℕ → List ((ℕ × ℕ) × Char)
  | [], _ => []
  | l :: ls, li =>
    (svgCharIds hasGlyph l 0).map (fun e => ((li, e.1), e.2)) ++ svgIdsLines hasGlyph ls (li + 1)

/-- All config-entry ids `((line, index), character)` emitted by
`get_text_animation_config` for a text already split into lines. -/
def configIdsLines : List (List Char) → ℕ → List ((ℕ × ℕ) × Char)
  | [], _ => []
  | l :: ls, li =>
    (configCharIds l 0).map (fun e => ((li, e.1), e.2)) ++ configIdsLines ls (li + 1)

/-! ## Pen tracker state machine (`kivg/drawing/pen_tracker.py`)

The `PenTracker` object state, over exact rationals.  Kivy graphics objects are
abstracted to the facts the claims speak about: `handVisible` models
`_hand_group is not None` (the marker added to `widget.canvas.after`);
`opacity` models the alpha channel of `_hand_color`; `slideEventActive` models
`_slide_out_event is not None` together with the host clock's contract that a
cancelled or stopped `Clock.schedule_interval` event delivers no further ticks;
`slideCallbackSet` models `_slide_out_callback is not None`; `callbackCount`
counts invocations of the slide-out completion callback. -/

/-- The state of a `PenTracker`, plus construction-time constants (`widgetPosY`
for `widget.pos[1]`, `handH` for `hand_size[1]`, `penOffset` for `pen_offset`)
and the `handTexture` flag telling whether `_load_hand_texture` succeeded. -/
structure PenTracker where
  widgetPosY : ℚ
  handH : ℚ
  penOffset : ℚ × ℚ
  handTexture : Bool
  isActive : Bool
  currentPos : ℚ × ℚ
  handVisible : Bool
  opacity : ℚ
  slideEventActive : Bool
  slideCallbackSet : Bool
  slideStartPos : ℚ × ℚ
  slideTargetPos : ℚ × ℚ
  slideProgress : ℚ
  slideDuration : ℚ
  callbackCount : ℕ
deriving DecidableEq, Repr

namespace PenTracker

/-- `PenTracker.__init__`: `_is_active = False`, `_current_pos = (0, 0)`,
no slide-out event or callback, and `_load_hand_texture` leaving
`_hand_texture = None` exactly when the marker asset is missing or unreadable
(`textureOk = false`). -/
def mk0 (widgetPosY handH : ℚ) (penOffset : ℚ × ℚ) (textureOk : Bool) : PenTracker :=
  { widgetPosY := widgetPosY, handH := handH, penOffset := penOffset
    handTexture := textureOk, isActive := false, currentPos := (0, 0)
    handVisible := false, opacity := 1, slideEventActive := false
    slideCallbackSet := false, slideStartPos := (0, 0), slideTargetPos := (0, 0)
    slideProgress := 0, slideDuration := 1, callbackCount := 0 }

/-- `start`: returns immediately when `_hand_texture is None`; otherwise sets
`_is_active = True` and adds the hand graphics (color alpha 1) to the canvas. -/
def start (s : PenTracker) : PenTracker :=
  if s.handTexture = false then s
  else { s with isActive := true, handVisible := true, opacity := 1 }

/-- `stop`: cancels any pending slide-out event, drops the slide-out callback
without calling it, sets `_is_active = False` and clears the hand graphics. -/
def stop (s : PenTracker) : PenTracker :=
  { s with slideEventActive := false, slideCallbackSet := false,
           isActive := false, handVisible := false }

/-- `update_position(x, y)`: no-op unless active with a loaded texture; otherwise
moves the hand to the pen tip minus the pen offset. -/
def update_position (s : PenTracker) (x y : ℚ) : PenTracker :=
  if s.isActive = false ∨ s.handTexture = false then s
  else { s with currentPos := (x - s.penOffset.1, y - s.penOffset.2) }

/-- `slide_out(on_complete, duration)`: when inactive or texture-less, invokes
the callback synchronously (when one was supplied) and returns; otherwise stores
the callback, computes the straight-down target
`(current_x, widget.pos[1] - hand_size[1])`, resets the progress and schedules
the interval event.  `hasCallback` models `on_complete is not None`. -/
def slide_out (s : PenTracker) (hasCallback : Bool) (duration : ℚ) : PenTracker :=
  if s.isActive = false ∨ s.handTexture = false then
    { s with callbackCount := if hasCallback then s.callbackCount + 1 else s.callbackCount }
  else
    { s with slideCallbackSet := hasCallback,
             slideStartPos := s.currentPos,
             slideTargetPos := (s.currentPos.1, s.widgetPosY - s.handH),
             slideProgress := 0,
             slideDuration := duration,
             slideEventActive := true }

/-- `_finish_slide_out`: cancels the event, deactivates, clears the hand, and
fires the stored callback (at most once, clearing it first). -/
def finish_slide_out (s : PenTracker) : PenTracker :=
  let s1 := { s with slideEventActive := false, isActive := false, handVisible := false }
  if s1.slideCallbackSet then
    { s1 with slideCallbackSet := false, callbackCount := s1.callbackCount + 1 }
  else s1

/-- `_update_slide_out(dt)`, as delivered by the host clock: a tick arrives only
while the interval event is scheduled.  The body advances
`_slide_progress += dt / duration`; at `>= 1.0` it clamps the progress and
finishes **without touching position or opacity**; below `1.0` it applies the
out-quadratic ease `-t * (t - 2)` to the position and fades the opacity to
`1 - ease`. -/
def update_slide_out (s : PenTracker) (dt : ℚ) : PenTracker :=
  if s.slideEventActive = false then s
  else
    let prog := s.slideProgress + dt / s.slideDuration
    if 1 ≤ prog then finish_slide_out { s with slideProgress := 1 }
    else
      let ease := -1 * prog * (prog - 2)
      { s with slideProgress := prog,
               currentPos := (s.slideStartPos.1 + (s.slideTargetPos.1 - s.slideStartPos.1) * ease,
                              s.slideStartPos.2 + (s.slideTargetPos.2 - s.slideStartPos.2) * ease),
               opacity := 1 * (1 - ease) }

/-- A burst of slide-out ticks delivered by the host clock. -/
def ticks (s : PenTracker) (dts : List ℚ) : PenTracker :=
  dts.foldl update_slide_out s

end PenTracker

/-- The externally drivable operations of a `PenTracker`. -/
inductive PenOp where
  | start
  | stop
  | updatePos (x y : ℚ)
  | slideOut (hasCallback : Bool) (duration : ℚ)
  | tick (dt : ℚ)

/-- Dispatch one operation to the pen tracker. -/
def penStep (s : PenTracker) : PenOp → PenTracker
  | .start => s.start
  | .stop => s.stop
  | .updatePos x y => s.update_position x y
  | .slideOut cb d => s.slide_out cb d
  | .tick dt => s.update_slide_out dt

/-- Fold a sequence of operations through the pen tracker. -/
def penFold (s : PenTracker) (ops : List PenOp) : PenTracker :=
  ops.foldl penStep s

end Kivg

/-! ## Easing catalog (`kivg/animation/easing.py`)

The 31 `AnimationTransition` static methods, modelled over `ℝ` with exact
`sin`, `cos`, `sqrt`, `π` and real exponentiation (`pow(2, x)` becomes the real
power `2 ^ x`).  Python float literals such as `0.3`, `1.70158` and `7.5625`
denote the corresponding exact rationals.  This is the exact-real semantics of
the formulas; where an endpoint's binary64 value provably differs from it and
the evaluation involves no library transcendental call, that value is computed
bit-exactly by the scaled-integer definitions `backConst`, `backConstPlusOne`,
`in_back_fl1` and `out_back_fl0` above. -/

namespace AnimationTransition

open Real

/-- `linear`: `return progress`. -/
noncomputable def linear (progress : ℝ) : ℝ := progress

/-- `in_quad`: `return progress * progress`. -/
noncomputable def in_quad (progress : ℝ) : ℝ := progress * progress

/-- `out_quad`: `return -1.0 * progress * (progress - 2.0)`. -/
noncomputable def out_quad (progress : ℝ) : ℝ := -1 * progress * (progress - 2)

/-- `in_out_quad`: split at `p = progress * 2 < 1`. -/
noncomputable def in_out_quad (progress : ℝ) : ℝ :=
  let p := progress * 2
  if p < 1 then 0.5 * p * p
  else -0.5 * ((p - 1) * ((p - 1) - 2) - 1)

/-- `in_cubic`: `return progress * progress * progress`. -/
noncomputable def in_cubic (progress : ℝ) : ℝ := progress * progress * progress

/-- `out_cubic`: `p = progress - 1.0; return p * p * p + 1.0`. -/
noncomputable def out_cubic (progress : ℝ) : ℝ :=
  (progress - 1) * (progress - 1) * (progress - 1) + 1

/-- `in_out_cubic`: split at `p = progress * 2 < 1`. -/
noncomputable def in_out_cubic (progress : ℝ) : ℝ :=
  let p := progress * 2
  if p < 1 then 0.5 * p * p * p
  else 0.5 * ((p - 2) * (p - 2) * (p - 2) + 2)

/-- `in_quart`. -/
noncomputable def in_quart (progress : ℝ) : ℝ := progress * progress * progress * progress

/-- `out_quart`: `p = progress - 1.0; return -1.0 * (p * p * p * p - 1.0)`. -/
noncomputable def out_quart (progress : ℝ) : ℝ :=
  -1 * ((progress - 1) * (progress - 1) * (progress - 1) * (progress - 1) - 1)

/-- `in_out_quart`: split at `p = progress * 2 < 1`. -/
noncomputable def in_out_quart (progress : ℝ) : ℝ :=
  let p := progress * 2
  if p < 1 then 0.5 * p * p * p * p
  else -0.5 * ((p - 2) * (p - 2) * (p - 2) * (p - 2) - 2)

/-- `in_quint`. -/
noncomputable def in_quint (progress : ℝ) : ℝ :=
  progress * progress * progress * progress * progress

/-- `out_quint`: `p = progress - 1.0; return p * p * p * p * p + 1.0`. -/
noncomputable def out_quint (progress : ℝ) : ℝ :=
  (progress - 1) * (progress - 1) * (progress - 1) * (progress - 1) * (progress - 1) + 1

/-- `in_out_quint`: split at `p = progress * 2 < 1`. -/
noncomputable def in_out_quint (progress : ℝ) : ℝ :=
  let p := progress * 2
  if p < 1 then 0.5 * p * p * p * p * p
  else 0.5 * ((p - 2) * (p - 2) * (p - 2) * (p - 2) * (p - 2) + 2)

/-- `in_sine`: `return -1.0 * cos(progress * (pi / 2.0)) + 1.0`. -/
noncomputable def in_sine (progress : ℝ) : ℝ :=
  -1 * Real.cos (progress * (π / 2)) + 1

/-- `out_sine`: `return sin(progress * (pi / 2.0))`. -/
noncomputable def out_sine (progress : ℝ) : ℝ :=
  Real.sin (progress * (π / 2))

/-- `in_out_sine`: `return -0.5 * (cos(pi * progress) - 1.0)`. -/
noncomputable def in_out_sine (progress : ℝ) : ℝ :=
  -0.5 * (Real.cos (π * progress) - 1)

/-- `in_expo`: `0` at `progress == 0`, else `pow(2, 10 * (progress - 1.0))`. -/
noncomputable def in_expo (progress : ℝ) : ℝ :=
  if progress = 0 then 0 else (2 : ℝ) ^ (10 * (progress - 1))

/-- `out_expo`: `1` at `progress == 1`, else `-pow(2, -10 * progress) + 1.0`. -/
noncomputable def out_expo (progress : ℝ) : ℝ :=
  if progress = 1 then 1 else -(2 : ℝ) ^ (-10 * progress) + 1

/-- `in_out_expo`: endpoint special cases, split at `p = progress * 2 < 1`. -/
noncomputable def in_out_expo (progress : ℝ) : ℝ :=
  if progress = 0 then 0
  else if progress = 1 then 1
  else
    let p := progress * 2
    if p < 1 then 0.5 * (2 : ℝ) ^ (10 * (p - 1))
    else 0.5 * (-(2 : ℝ) ^ (-10 * (p - 1)) + 2)

/-- `in_circ`: `return -1.0 * (sqrt(1.0 - progress * progress) - 1.0)`. -/
noncomputable def in_circ (progress : ℝ) : ℝ :=
  -1 * (Real.sqrt (1 - progress * progress) - 1)

/-- `out_circ`: `p = progress - 1.0; return sqrt(1.0 - p * p)`. -/
noncomputable def out_circ (progress : ℝ) : ℝ :=
  Real.sqrt (1 - (progress - 1) * (progress - 1))

/-- `in_out_circ`: split at `p = progress * 2 < 1`. -/
noncomputable def in_out_circ (progress : ℝ) : ℝ :=
  let p := progress * 2
  if p < 1 then -0.5 * (Real.sqrt (1 - p * p) - 1)
  else 0.5 * (Real.sqrt (1 - (p - 2) * (p - 2)) + 1)

/-- `in_elastic`: period `p = .3`, `s = p / 4.0`; `1` at `q == 1`, else
`-(pow(2, 10 * q) * sin((q - s) * (2 * pi) / p))` with `q` shifted by `-1`. -/
noncomputable def in_elastic (progress : ℝ) : ℝ :=
  if progress = 1 then 1
  else
    -((2 : ℝ) ^ (10 * (progress - 1)) *
      Real.sin (((progress - 1) - 0.3 / 4) * (2 * π) / 0.3))

/-- `out_elastic`: period `p = .3`, `s = p / 4.0`; `1` at `q == 1`, else
`pow(2, -10 * q) * sin((q - s) * (2 * pi) / p) + 1.0`. -/
noncomputable def out_elastic (progress : ℝ) : ℝ :=
  if progress = 1 then 1
  else (2 : ℝ) ^ (-10 * progress) * Real.sin ((progress - 0.3 / 4) * (2 * π) / 0.3) + 1

/-- `in_out_elastic`: period `p = .3 * 1.5`, `s = p / 4.0`, `q = progress * 2`;
`1` at `q == 2`; for `q < 1` the ease-in branch on `q - 1`, else the ease-out
branch on `q - 1`. -/
noncomputable def in_out_elastic (progress : ℝ) : ℝ :=
  let p := (0.3 : ℝ) * 1.5
  let s := p / 4
  let q := progress * 2
  if q = 2 then 1
  else if q < 1 then
    -0.5 * ((2 : ℝ) ^ (10 * (q - 1)) * Real.sin (((q - 1) - s) * (2 * π) / p))
  else
    (2 : ℝ) ^ (-10 * (q - 1)) * Real.sin (((q - 1) - s) * (2 * π) / p) * 0.5 + 1

/-- `in_back`: `return progress * progress * ((1.70158 + 1.0) * progress - 1.70158)`. -/
noncomputable def in_back (progress : ℝ) : ℝ :=
  progress * progress * ((1.70158 + 1) * progress - 1.70158)

/-- `out_back`: `p = progress - 1.0; return p * p * ((1.70158 + 1) * p + 1.70158) + 1.0`. -/
noncomputable def out_back (progress : ℝ) : ℝ :=
  (progress - 1) * (progress - 1) * ((1.70158 + 1) * (progress - 1) + 1.70158) + 1

/-- `in_out_back`: `s = 1.70158 * 1.525`, split at `p = progress * 2 < 1`. -/
noncomputable def in_out_back (progress : ℝ) : ℝ :=
  let p := progress * 2
  let s := (1.70158 : ℝ) * 1.525
  if p < 1 then 0.5 * (p * p * ((s + 1) * p - s))
  else 0.5 * ((p - 2) * (p - 2) * ((s + 1) * (p - 2) + s) + 2)

/-- `_out_bounce_internal(t, d)`: four-band piecewise quadratic. -/
noncomputable def out_bounce_internal (t d : ℝ) : ℝ :=
  let p := t / d
  if p < 1 / 2.75 then 7.5625 * p * p
  else if p < 2 / 2.75 then 7.5625 * (p - 1.5 / 2.75) * (p - 1.5 / 2.75) + 0.75
  else if p < 2.5 / 2.75 then 7.5625 * (p - 2.25 / 2.75) * (p - 2.25 / 2.75) + 0.9375
  else 7.5625 * (p - 2.625 / 2.75) * (p - 2.625 / 2.75) + 0.984375

/-- `_in_bounce_internal(t, d) = 1.0 - _out_bounce_internal(d - t, d)`. -/
noncomputable def in_bounce_internal (t d : ℝ) : ℝ :=
  1 - out_bounce_internal (d - t) d

/-- `in_bounce`: `return cls._in_bounce_internal(progress, 1.0)`. -/
noncomputable def in_bounce (progress : ℝ) : ℝ := in_bounce_internal progress 1

/-- `out_bounce`: `return cls._out_bounce_internal(progress, 1.0)`. -/
noncomputable def out_bounce (progress : ℝ) : ℝ := out_bounce_internal progress 1

/-- `in_out_bounce`: split at `p = progress * 2.0 < 1`. -/
noncomputable def in_out_bounce (progress : ℝ) : ℝ :=
  let p := progress * 2
  if p < 1 then in_bounce_internal p 1 * 0.5
  else out_bounce_internal (p - 1) 1 * 0.5 + 0.5

end AnimationTransition

namespace Kivg

/-! ## Theorems -/

/-- C5: For every source point `(x, y)`, nonzero source size `(sw, sh)`, target
position `(tx, ty)` and target size `(tw, th)`, the coordinate mapper returns
`x' = tx + tw*x/sw`, and `y' = ty + th*(sh-y)/sh` when Y-flip is enabled, else
`y' = ty + th*y/sh`. -/
theorem transform_point_formula (x y sw sh tx ty tw th : ℚ) (flip : Bool)
    (hsw : sw ≠ 0) (hsh : sh ≠ 0) :
    transform_point (x, y) (tw, th) (tx, ty) (sw, sh) flip =
      .ok (tx + tw * x / sw,
           if flip then ty + th * (sh - y) / sh else ty + th * y / sh) := by
  cases flip <;>
  · rw [transform_point, transform_x, if_neg hsw, transform_y, if_neg hsh]
    rfl

/-- Witness for C5 at a concrete input. -/
theorem transform_point_formula_witness :
    (3 : ℚ) ≠ 0 ∧ (4 : ℚ) ≠ 0 ∧
    transform_point ((1 : ℚ), 2) (7, 8) (5, 6) (3, 4) true =
      .ok (5 + 7 * 1 / 3, if true then 6 + 8 * (4 - 2) / 4 else 6 + 8 * 2 / 4) :=
  ⟨by norm_num, by norm_num,
    transform_point_formula 1 2 3 4 5 6 7 8 true (by norm_num) (by norm_num)⟩

/-- C4 counterexample: with a zero source width the mapper fails with
`ZeroDivisionError`, not with `ConfigurationError` as the claim states. -/
theorem transform_zero_width_not_configuration_error :
    transform_x 1 2 3 0 = .error .zeroDivisionError ∧
    transform_x 1 2 3 0 ≠ .error .configurationError := by
  refine ⟨by simp [transform_x], ?_⟩
  simp [transform_x]

/-- C4 amended: coordinate mapping fails with `ZeroDivisionError` (the bare
Python float-division error — no `ConfigurationError` exists in the source)
whenever the source viewport width or height is zero, for every input point and
every target position/size. -/
theorem transform_point_zero_size_error (x y sw sh tx ty tw th : ℚ) (flip : Bool)
    (h : sw = 0 ∨ sh = 0) :
    transform_point (x, y) (tw, th) (tx, ty) (sw, sh) flip =
      .error .zeroDivisionError := by
  by_cases hsw : sw = 0
  · rw [transform_point, transform_x, if_pos hsw]
    rfl
  · rcases h with h | h
    · exact absurd h hsw
    · rw [transform_point, transform_x, if_neg hsw, transform_y, if_pos h]
      rfl

/-- Witness for the amended C4 at a concrete input. -/
theorem transform_point_zero_size_error_witness :
    ((0 : ℚ) = 0 ∨ (5 : ℚ) = 0) ∧
    transform_point ((1 : ℚ), 2) (3, 4) (6, 7) (0, 5) false =
      .error .zeroDivisionError :=
  ⟨Or.inl rfl, transform_point_zero_size_error 1 2 0 5 6 7 3 4 false (Or.inl rfl)⟩

/-- Floor of an integer plus a fractional part in `[0, 1)`. -/
theorem floor_cast_add_frac (z : ℤ) (x : ℚ) (h1 : 0 ≤ x) (h2 : x < 1) :
    ⌊(z : ℚ) + x⌋ = z := by
  rw [Int.floor_int_add, Int.floor_eq_zero_iff.mpr (Set.mem_Ico.mpr ⟨h1, h2⟩), add_zero]

/-- C10: `find_center` on a non-empty sorted list returns the single element at
index `len/2 - 1` when the length is even but not divisible by 4, the average of
the two middle elements exactly when the length is divisible by 4 (`len/2`
even), and the exact middle element when the length is odd. -/
theorem find_center_spec (l : List ℚ) (_hs : l.Sorted (· ≤ ·)) (hne : l ≠ []) :
    (l.length % 2 = 1 → find_center l = l.getD (l.length / 2) 0) ∧
    (l.length % 4 = 2 → find_center l = l.getD (l.length / 2 - 1) 0) ∧
    (l.length % 4 = 0 →
      find_center l = (l.getD (l.length / 2) 0 + l.getD (l.length / 2 - 1) 0) / 2) := by
  obtain ⟨k, r, hr, hn⟩ : ∃ k r, r < 4 ∧ l.length = 4 * k + r :=
    ⟨l.length / 4, l.length % 4, Nat.mod_lt _ (by norm_num),
      (Nat.div_add_mod _ 4).symm⟩
  interval_cases r
  · -- length = 4k, k ≥ 1 since l ≠ []
    refine ⟨fun h => by omega, fun h => by omega, fun _ => ?_⟩
    have hk : 1 ≤ k := by
      rcases Nat.eq_zero_or_pos k with h0 | h1
      · exact absurd (List.length_eq_zero.mp (by omega)) hne
      · exact h1
    have hfloor : ⌊((l.length : ℚ) / 2) / 2⌋ = (k : ℤ) := by
      rw [show ((l.length : ℚ) / 2) / 2 = ((k : ℤ) : ℚ) + 0 by push_cast [hn]; ring]
      exact floor_cast_add_frac k 0 (by norm_num) (by norm_num)
    have hmod : pyMod2 ((l.length : ℚ) / 2) = 0 := by
      rw [pyMod2, hfloor]; push_cast [hn]; ring
    have ht1 : pyTrunc ((l.length : ℚ) / 2) = (2 * k : ℤ) := by
      rw [pyTrunc, if_pos (by positivity),
        show ((l.length : ℚ) / 2) = ((2 * k : ℤ) : ℚ) + 0 by push_cast [hn]; ring]
      exact floor_cast_add_frac _ 0 (by norm_num) (by norm_num)
    have ht2 : pyTrunc ((l.length : ℚ) / 2 - 1) = (2 * (k : ℤ) - 1) := by
      have hk0 : (1 : ℚ) ≤ (k : ℚ) := by exact_mod_cast hk
      rw [pyTrunc, if_pos (by push_cast [hn]; linarith),
        show ((l.length : ℚ) / 2 - 1) = ((2 * (k : ℤ) - 1 : ℤ) : ℚ) + 0 by push_cast [hn]; ring]
      exact floor_cast_add_frac _ 0 (by norm_num) (by norm_num)
    have e1 : pyIndex l (2 * (k : ℤ)) = l.getD (l.length / 2) 0 := by
      rw [pyIndex, if_pos (by positivity)]
      congr 1
      omega
    have e2 : pyIndex l (2 * (k : ℤ) - 1) = l.getD (l.length / 2 - 1) 0 := by
      rw [pyIndex, if_pos (by omega)]
      congr 1
      omega
    simp only [find_center, if_neg (by simp [hmod] : ¬pyMod2 ((l.length : ℚ) / 2) ≠ 0),
      ht1, ht2, e1, e2]
  · -- length = 4k + 1 : odd
    refine ⟨fun _ => ?_, fun h => by omega, fun h => by omega⟩
    have hfloor : ⌊((l.length : ℚ) / 2) / 2⌋ = (k : ℤ) := by
      rw [show ((l.length : ℚ) / 2) / 2 = ((k : ℤ) : ℚ) + 1/4 by push_cast [hn]; ring]
      exact floor_cast_add_frac k (1/4) (by norm_num) (by norm_num)
    have hmod : pyMod2 ((l.length : ℚ) / 2) = 1/2 := by
      rw [pyMod2, hfloor]; push_cast [hn]; ring
    have ht : pyTrunc ((l.length : ℚ) / 2 - 1/2) = (2 * k : ℤ) := by
      have hk0 : (0 : ℚ) ≤ (k : ℚ) := Nat.cast_nonneg k
      rw [pyTrunc, if_pos (by push_cast [hn]; linarith),
        show ((l.length : ℚ) / 2 - 1/2) = ((2 * k : ℤ) : ℚ) + 0 by push_cast [hn]; ring]
      exact floor_cast_add_frac _ 0 (by norm_num) (by norm_num)
    have e1 : pyIndex l (2 * k : ℤ) = l.getD (l.length / 2) 0 := by
      rw [pyIndex, if_pos (by positivity)]
      congr 1
      omega
    simp only [find_center, if_pos (by rw [hmod]; norm_num : pyMod2 ((l.length : ℚ) / 2) ≠ 0),
      ht, e1]
  · -- length = 4k + 2 : even, not divisible by 4
    refine ⟨fun h => by omega, fun _ => ?_, fun h => by omega⟩
    have hfloor : ⌊((l.length : ℚ) / 2) / 2⌋ = (k : ℤ) := by
      rw [show ((l.length : ℚ) / 2) / 2 = ((k : ℤ) : ℚ) + 1/2 by push_cast [hn]; ring]
      exact floor_cast_add_frac k (1/2) (by norm_num) (by norm_num)
    have hmod : pyMod2 ((l.length : ℚ) / 2) = 1 := by
      rw [pyMod2, hfloor]; push_cast [hn]; ring
    have ht : pyTrunc ((l.length : ℚ) / 2 - 1/2) = (2 * k : ℤ) := by
      have hk0 : (0 : ℚ) ≤ (k : ℚ) := Nat.cast_nonneg k
      rw [pyTrunc, if_pos (by push_cast [hn]; linarith),
        show ((l.length : ℚ) / 2 - 1/2) = ((2 * k : ℤ) : ℚ) + 1/2 by push_cast [hn]; ring]
      exact floor_cast_add_frac _ (1/2) (by norm_num) (by norm_num)
    have e1 : pyIndex l (2 * k : ℤ) = l.getD (l.length / 2 - 1) 0 := by
      rw [pyIndex, if_pos (by positivity)]
      congr 1
      omega
    simp only [find_center, if_pos (by rw [hmod]; norm_num : pyMod2 ((l.length : ℚ) / 2) ≠ 0),
      ht, e1]
  · -- length = 4k + 3 : odd
    refine ⟨fun _ => ?_, fun h => by omega, fun h => by omega⟩
    have hfloor : ⌊((l.length : ℚ) / 2) / 2⌋ = (k : ℤ) := by
      rw [show ((l.length : ℚ) / 2) / 2 = ((k : ℤ) : ℚ) + 3/4 by push_cast [hn]; ring]
      exact floor_cast_add_frac k (3/4) (by norm_num) (by norm_num)
    have hmod : pyMod2 ((l.length : ℚ) / 2) = 3/2 := by
      rw [pyMod2, hfloor]; push_cast [hn]; ring
    have ht : pyTrunc ((l.length : ℚ) / 2 - 1/2) = (2 * (k : ℤ) + 1) := by
      have hk0 : (0 : ℚ) ≤ (k : ℚ) := Nat.cast_nonneg k
      rw [pyTrunc, if_pos (by push_cast [hn]; linarith),
        show ((l.length : ℚ) / 2 - 1/2) = ((2 * (k : ℤ) + 1 : ℤ) : ℚ) + 0 by push_cast [hn]; ring]
      exact floor_cast_add_frac _ 0 (by norm_num) (by norm_num)
    have e1 : pyIndex l (2 * (k : ℤ) + 1) = l.getD (l.length / 2) 0 := by
      rw [pyIndex, if_pos (by positivity)]
      congr 1
      omega
    simp only [find_center, if_pos (by rw [hmod]; norm_num : pyMod2 ((l.length : ℚ) / 2) ≠ 0),
      ht, e1]

/-- One shape's completion run: the progress ticks set `currShape`, leaving the
fold at the state whose current shape is the final data. -/
theorem sessionFold_progressRun {α : Type} (ps : List α) (x : α) :
    ∀ (s : Session α) (rest : List (SessionEvent α)),
      sessionFold s ((ps ++ [x]).map .progress ++ rest) =
        sessionFold { s with currShape := x } rest := by
  induction ps with
  | nil => intro s rest; rfl
  | cons p ps ih =>
    intro s rest
    simpa [sessionFold, sessionStep, track_progress] using
      ih { s with currShape := p } rest

/-- The accumulated effect of a multi-shape session run, for an arbitrary
starting state. -/
theorem sessionFold_multiShapeTrace {α : Type} (shapes : List (List α × α)) :
    ∀ (c : ℕ) (acc : List α) (cur : α),
      sessionFold ⟨c, acc, cur⟩ (multiShapeTrace shapes) =
        ⟨c + shapes.length, acc ++ shapes.map Prod.snd,
          (sessionFold ⟨c, acc, cur⟩ (multiShapeTrace shapes)).currShape⟩ := by
  induction shapes with
  | nil => intro c acc cur; simp [multiShapeTrace, sessionFold]
  | cons pr rest ih =>
    intro c acc cur
    have hsplit : multiShapeTrace (pr :: rest) =
        (pr.1 ++ [pr.2]).map .progress ++ ([.complete] ++ multiShapeTrace rest) := by
      simp [multiShapeTrace, shapeTrace]
    rw [hsplit, sessionFold_progressRun]
    have hstep :
        sessionFold { Session.mk c acc cur with currShape := pr.2 }
            ([.complete] ++ multiShapeTrace rest) =
          sessionFold ⟨c + 1, acc ++ [pr.2], pr.2⟩ (multiShapeTrace rest) := by
      rfl
    rw [hstep, ih]
    simp [List.append_assoc]
    omega

/-- C6: in a multi-shape session, the settled-shapes list only grows by
appending (each event leaves the previous list as a prefix, and completion
appends exactly the just-completed shape), so after `N` shapes complete
sequentially the settled list has length `N` and holds the shapes in input
order. -/
theorem session_settled_append_only {α : Type} (shapes : List (List α × α)) (cur0 : α) :
    (∀ (s : Session α) (e : SessionEvent α),
        ∃ t, (sessionStep s e).prevShapes = s.prevShapes ++ t) ∧
    (sessionFold ⟨0, [], cur0⟩ (multiShapeTrace shapes)).prevShapes =
      shapes.map Prod.snd ∧
    (sessionFold ⟨0, [], cur0⟩ (multiShapeTrace shapes)).prevShapes.length =
      shapes.length ∧
    (sessionFold ⟨0, [], cur0⟩ (multiShapeTrace shapes)).currCount = shapes.length := by
  refine ⟨?_, ?_, ?_, ?_⟩
  · intro s e
    cases e with
    | progress shape => exact ⟨[], by simp [sessionStep, track_progress]⟩
    | complete => exact ⟨[s.currShape], by simp [sessionStep, anim_on_comp]⟩
  · rw [sessionFold_multiShapeTrace]
    simp
  · rw [sessionFold_multiShapeTrace]
    simp
  · rw [sessionFold_multiShapeTrace]
    simp

/-- Per-line agreement of the two id generators: the SVG generator emits exactly
the glyph-bearing subsequence of the config generator's entries, with identical
indices. -/
theorem svgCharIds_eq_filter (g : Char → Bool) (cs : List Char) :
    ∀ idx, svgCharIds g cs idx = (configCharIds cs idx).filter (fun e => g e.2) := by
  induction cs with
  | nil => intro idx; simp [svgCharIds, configCharIds]
  | cons c cs ih =>
    intro idx
    by_cases hc : c = ' ' <;> by_cases hg : g c <;>
      simp [svgCharIds, configCharIds, hc, hg, ih, List.filter_cons]

/-- C9: for every text (split into lines) and every font (abstracted by the
glyph-existence predicate `g`), the `((line, index), char)` ids of the `<path>`
elements emitted by `text_to_svg_paths` are exactly the ids of the
`get_text_animation_config` entries whose character has a glyph — both number
only non-space characters per line, so for every non-space character whose
glyph exists, the config entry's id matches the id of that character's path
element. -/
theorem text_ids_agree (g : Char → Bool) (ls : List (List Char)) :
    ∀ li, svgIdsLines g ls li = (configIdsLines ls li).filter (fun e => g e.2) := by
  induction ls with
  | nil => intro li; simp [svgIdsLines, configIdsLines]
  | cons l rest ih =>
    intro li
    have hline := svgCharIds_eq_filter g l 0
    simp only [svgIdsLines, configIdsLines, List.filter_append, ih, hline]
    congr 1
    rw [List.filter_map]
    congr 1

/-- A tick delivered while no slide-out event is scheduled changes nothing
(the host clock delivers `_update_slide_out` ticks only for a live
`Clock.schedule_interval` event). -/
theorem update_slide_out_inactive (s : PenTracker) (dt : ℚ)
    (h : s.slideEventActive = false) : s.update_slide_out dt = s := by
  rw [PenTracker.update_slide_out, if_pos h]

/-- Ticks after the slide-out event is gone leave the tracker unchanged. -/
theorem ticks_inactive (dts : List ℚ) :
    ∀ (s : PenTracker), s.slideEventActive = false → PenTracker.ticks s dts = s := by
  induction dts with
  | nil => intro s _; rfl
  | cons dt dts ih =>
    intro s h
    rw [PenTracker.ticks, List.foldl_cons, update_slide_out_inactive s dt h]
    exact ih s h

/-- C7: `stop()` from any state cancels pending slide-out ticks and returns the
tracker to Idle immediately (`is_active` false, marker hidden), and neither
`stop()` itself nor any later stale tick fires the slide-out completion
callback — the callback count is exactly what it was before. -/
theorem pen_stop_idle_no_callback (s : PenTracker) (dts : List ℚ) :
    s.stop.isActive = false ∧
    s.stop.handVisible = false ∧
    s.stop.slideEventActive = false ∧
    s.stop.slideCallbackSet = false ∧
    s.stop.callbackCount = s.callbackCount ∧
    PenTracker.ticks s.stop dts = s.stop := by
  refine ⟨rfl, rfl, rfl, rfl, rfl, ?_⟩
  exact ticks_inactive dts s.stop rfl

/-- Every pen-tracker operation preserves the texture flag, and a texture-less
tracker can never become active. -/
theorem penStep_no_texture_invariant (s : PenTracker) (op : PenOp)
    (h : s.handTexture = false ∧ s.isActive = false) :
    (penStep s op).handTexture = false ∧ (penStep s op).isActive = false := by
  obtain ⟨ht, ha⟩ := h
  cases op with
  | start =>
    simp only [penStep, PenTracker.start, ht, if_pos rfl]
    exact ⟨ht, ha⟩
  | stop => exact ⟨ht, rfl⟩
  | updatePos x y =>
    rw [penStep, PenTracker.update_position, if_pos (Or.inr ht)]
    exact ⟨ht, ha⟩
  | slideOut cb d =>
    rw [penStep, PenTracker.slide_out, if_pos (Or.inr ht)]
    exact ⟨ht, ha⟩
  | tick dt =>
    rw [penStep, PenTracker.update_slide_out]
    by_cases hev : s.slideEventActive = false
    · rw [if_pos hev]; exact ⟨ht, ha⟩
    · rw [if_neg hev]
      by_cases hp : 1 ≤ s.slideProgress + dt / s.slideDuration
      · rw [if_pos hp, PenTracker.finish_slide_out]
        by_cases hcb : s.slideCallbackSet <;> simp [hcb, ht]
      · rw [if_neg hp]
        exact ⟨ht, ha⟩

/-- C8: if the marker asset fails to load, the tracker never enters the Active
state: `start()` is a no-op (state unchanged, hence no exception observable in
the model), `slide_out()` performs no animation — it only invokes its completion
callback synchronously when one was supplied — and no sequence of operations on
a freshly constructed texture-less tracker ever makes it active. -/
theorem pen_no_texture_degrades (s : PenTracker) (h : s.handTexture = false)
    (cb : Bool) (d : ℚ) (ops : List PenOp) (w hh : ℚ) (off : ℚ × ℚ) :
    s.start = s ∧
    s.slide_out cb d =
      { s with callbackCount := if cb then s.callbackCount + 1 else s.callbackCount } ∧
    (s.slide_out cb d).slideEventActive = s.slideEventActive ∧
    (penFold (PenTracker.mk0 w hh off false) ops).isActive = false := by
  refine ⟨?_, ?_, ?_, ?_⟩
  · rw [PenTracker.start, if_pos h]
  · rw [PenTracker.slide_out, if_pos (Or.inr h)]
  · rw [PenTracker.slide_out, if_pos (Or.inr h)]
  · have key : ∀ (l : List PenOp) (t : PenTracker),
        t.handTexture = false → t.isActive = false →
        (penFold t l).handTexture = false ∧ (penFold t l).isActive = false := by
      intro l
      induction l with
      | nil => intro t ht ha; exact ⟨ht, ha⟩
      | cons op rest ih =>
        intro t ht ha
        have hstep := penStep_no_texture_invariant t op ⟨ht, ha⟩
        exact ih (penStep t op) hstep.1 hstep.2
    exact (key ops (PenTracker.mk0 w hh off false) rfl rfl).2

/-- Witness for C8 at a concrete texture-less tracker. -/
theorem pen_no_texture_degrades_witness :
    (PenTracker.mk0 100 100 (10, 85) false).handTexture = false ∧
    ((PenTracker.mk0 100 100 (10, 85) false).slide_out true 1).callbackCount =
      (PenTracker.mk0 100 100 (10, 85) false).callbackCount + 1 := by
  have h := pen_no_texture_degrades (PenTracker.mk0 100 100 (10, 85) false) rfl
    true 1 [] 100 100 (10, 85)
  refine ⟨rfl, ?_⟩
  rw [h.2.1]
  simp

/-- C3 counterexample: a pen tracker started at position (190, 100) over a
widget whose computed bottom edge is 0, sliding out over duration 1/2 with two
ticks of 1/4s each: on the tick that reaches progress 1.0 the callback fires
(exactly once) but the position and the opacity are left at their values from
the previous tick — `position.y = 25 ≠ 0` and `opacity = 1/4 ≠ 0`, contradicting
the claimed `position.y == 0` and `opacity == 0`. -/
theorem pen_slide_out_final_tick_counterexample :
    (((((PenTracker.mk0 100 100 (10, 85) true).start.update_position 200 185).slide_out
        true (1/2)).update_slide_out (1/4)).update_slide_out (1/4)).slideProgress = 1 ∧
    (((((PenTracker.mk0 100 100 (10, 85) true).start.update_position 200 185).slide_out
        true (1/2)).update_slide_out (1/4)).update_slide_out (1/4)).callbackCount = 1 ∧
    (((((PenTracker.mk0 100 100 (10, 85) true).start.update_position 200 185).slide_out
        true (1/2)).update_slide_out (1/4)).update_slide_out (1/4)).currentPos.2 = 25 ∧
    (((((PenTracker.mk0 100 100 (10, 85) true).start.update_position 200 185).slide_out
        true (1/2)).update_slide_out (1/4)).update_slide_out (1/4)).currentPos.2 ≠ 0 ∧
    (((((PenTracker.mk0 100 100 (10, 85) true).start.update_position 200 185).slide_out
        true (1/2)).update_slide_out (1/4)).update_slide_out (1/4)).opacity = 1/4 ∧
    (((((PenTracker.mk0 100 100 (10, 85) true).start.update_position 200 185).slide_out
        true (1/2)).update_slide_out (1/4)).update_slide_out (1/4)).opacity ≠ 0 := by
  norm_num [PenTracker.mk0, PenTracker.start, PenTracker.update_position,
    PenTracker.slide_out, PenTracker.update_slide_out, PenTracker.finish_slide_out]

/-- C3 amended: when the slide-out animation reaches progress 1.0 on its own,
the marker is hidden and deactivated and the completion callback is invoked
exactly once — never twice, since later ticks are inert — but the finishing tick
performs no position or opacity update, so the marker's position and opacity
keep the values from the last tick before completion (in general `position.y`
does not equal the computed bottom edge and the opacity does not equal 0). -/
theorem pen_slide_out_completion (s : PenTracker) (dt : ℚ) (dts : List ℚ)
    (hev : s.slideEventActive = true) (hcb : s.slideCallbackSet = true)
    (hprog : 1 ≤ s.slideProgress + dt / s.slideDuration) :
    (s.update_slide_out dt).callbackCount = s.callbackCount + 1 ∧
    (s.update_slide_out dt).isActive = false ∧
    (s.update_slide_out dt).handVisible = false ∧
    (s.update_slide_out dt).slideEventActive = false ∧
    (s.update_slide_out dt).currentPos = s.currentPos ∧
    (s.update_slide_out dt).opacity = s.opacity ∧
    (PenTracker.ticks (s.update_slide_out dt) dts).callbackCount =
      s.callbackCount + 1 := by
  have hne : ¬s.slideEventActive = false := by simp [hev]
  have hstep : s.update_slide_out dt =
      PenTracker.finish_slide_out { s with slideProgress := 1 } := by
    rw [PenTracker.update_slide_out, if_neg hne, if_pos hprog]
  have hfin : PenTracker.finish_slide_out { s with slideProgress := 1 } =
      { s with slideProgress := 1, slideEventActive := false, isActive := false,
               handVisible := false, slideCallbackSet := false,
               callbackCount := s.callbackCount + 1 } := by
    rw [PenTracker.finish_slide_out]
    simp [hcb]
  rw [hstep, hfin]
  refine ⟨rfl, rfl, rfl, rfl, rfl, rfl, ?_⟩
  rw [ticks_inactive dts _ rfl]

/-- Witness for the amended C3 at a concrete mid-slide state. -/
theorem pen_slide_out_completion_witness :
    ((((PenTracker.mk0 100 100 (10, 85) true).start.update_position 200 185).slide_out
        true (1/2)).update_slide_out (1/4)).slideEventActive = true ∧
    ((((PenTracker.mk0 100 100 (10, 85) true).start.update_position 200 185).slide_out
        true (1/2)).update_slide_out (1/4)).slideCallbackSet = true ∧
    (((((PenTracker.mk0 100 100 (10, 85) true).start.update_position 200 185).slide_out
        true (1/2)).update_slide_out (1/4)).update_slide_out (1/4)).callbackCount =
      ((((PenTracker.mk0 100 100 (10, 85) true).start.update_position 200 185).slide_out
        true (1/2)).update_slide_out (1/4)).callbackCount + 1 := by
  have h1 : ((((PenTracker.mk0 100 100 (10, 85) true).start.update_position
      200 185).slide_out true (1/2)).update_slide_out (1/4)).slideEventActive = true := by
    norm_num [PenTracker.mk0, PenTracker.start, PenTracker.update_position,
      PenTracker.slide_out, PenTracker.update_slide_out, PenTracker.finish_slide_out]
  have h2 : ((((PenTracker.mk0 100 100 (10, 85) true).start.update_position
      200 185).slide_out true (1/2)).update_slide_out (1/4)).slideCallbackSet = true := by
    norm_num [PenTracker.mk0, PenTracker.start, PenTracker.update_position,
      PenTracker.slide_out, PenTracker.update_slide_out, PenTracker.finish_slide_out]
  have h3 : (1 : ℚ) ≤ ((((PenTracker.mk0 100 100 (10, 85) true).start.update_position
      200 185).slide_out true (1/2)).update_slide_out (1/4)).slideProgress +
      (1/4) / ((((PenTracker.mk0 100 100 (10, 85) true).start.update_position
      200 185).slide_out true (1/2)).update_slide_out (1/4)).slideDuration := by
    norm_num [PenTracker.mk0, PenTracker.start, PenTracker.update_position,
      PenTracker.slide_out, PenTracker.update_slide_out, PenTracker.finish_slide_out]
  exact ⟨h1, h2, (pen_slide_out_completion _ (1/4) [] h1 h2 h3).1⟩

/-- The exact value of `in_elastic` at progress `0`: the formula at `q = -1`
evaluates to `-(2^-10 * sin(5π/6)) = -1/2048`. -/
theorem in_elastic_zero_value : AnimationTransition.in_elastic 0 = -(1/2048) := by
  rw [AnimationTransition.in_elastic, if_neg (by norm_num : (0:ℝ) ≠ 1)]
  have e1 : (10:ℝ) * ((0:ℝ) - 1) = ((-10 : ℤ) : ℝ) := by norm_num
  have e2 : (((0:ℝ) - 1) - 0.3 / 4) * (2 * Real.pi) / 0.3 =
      5 * Real.pi / 6 + (-4 : ℤ) * (2 * Real.pi) := by
    push_cast
    ring
  rw [e1, Real.rpow_intCast, e2, Real.sin_add_int_mul_two_pi]
  have e3 : 5 * Real.pi / 6 = Real.pi - Real.pi / 6 := by ring
  rw [e3, Real.sin_pi_sub, Real.sin_pi_div_six]
  norm_num

/-- `in_out_elastic` at progress `0` is strictly positive
(`2^-11 * sin(π/18)`), hence nonzero. -/
theorem in_out_elastic_zero_pos : 0 < AnimationTransition.in_out_elastic 0 := by
  simp only [AnimationTransition.in_out_elastic]
  rw [if_neg (by norm_num : ¬((0:ℝ) * 2 = 2)), if_pos (by norm_num : (0:ℝ) * 2 < 1)]
  have e1 : (10:ℝ) * ((0:ℝ) * 2 - 1) = ((-10 : ℤ) : ℝ) := by norm_num
  have e2 : (((0:ℝ) * 2 - 1) - (0.3 : ℝ) * 1.5 / 4) * (2 * Real.pi) / ((0.3:ℝ) * 1.5) =
      -(17 * Real.pi / 18) + (-2 : ℤ) * (2 * Real.pi) := by
    push_cast
    ring
  rw [e1, Real.rpow_intCast, e2, Real.sin_add_int_mul_two_pi, Real.sin_neg]
  have hs : 0 < Real.sin (17 * Real.pi / 18) := by
    apply Real.sin_pos_of_pos_of_lt_pi
    · positivity
    · nlinarith [Real.pi_pos]
  have hc : (0:ℝ) < (2:ℝ) ^ (-10 : ℤ) := by positivity
  nlinarith [hs, hc]

/-- C2 counterexample: `in_elastic` does not map progress 0 to 0: its formula
evaluates to `-1/2048` at progress 0, strictly negative — a failure of the
formula itself, robust to rounding (the float code returns a value within one
part in 10^12 of `-1/2048`, likewise nonzero). -/
theorem in_elastic_zero_counterexample :
    AnimationTransition.in_elastic 0 < 0 ∧ AnimationTransition.in_elastic 0 ≠ 0 := by
  rw [in_elastic_zero_value]
  norm_num

/-- C2 amended: at the formula level, under exact real arithmetic, every easing
function in the catalog maps progress 1 to 1, and every one except `in_elastic`
and `in_out_elastic` maps progress 0 to 0; the two elastic variants fail
algebraically at progress 0 — `in_elastic 0 = -1/2048` and
`in_out_elastic 0 > 0` — independently of any rounding.  The original claim's
"exactly", as executed in binary64, fails for further endpoints: rounding of the
constant `1.70158` makes `in_back(1.0) = 1 - 2^-52 ≠ 1` and
`out_back(0.0) = 2^-52 ≠ 0` (computed bit-exactly by `in_back_fl1` and
`out_back_fl0`). -/
theorem easing_endpoints :
    AnimationTransition.linear 0 = 0 ∧ AnimationTransition.linear 1 = 1 ∧
    AnimationTransition.in_quad 0 = 0 ∧ AnimationTransition.in_quad 1 = 1 ∧
    AnimationTransition.out_quad 0 = 0 ∧ AnimationTransition.out_quad 1 = 1 ∧
    AnimationTransition.in_out_quad 0 = 0 ∧ AnimationTransition.in_out_quad 1 = 1 ∧
    AnimationTransition.in_cubic 0 = 0 ∧ AnimationTransition.in_cubic 1 = 1 ∧
    AnimationTransition.out_cubic 0 = 0 ∧ AnimationTransition.out_cubic 1 = 1 ∧
    AnimationTransition.in_out_cubic 0 = 0 ∧ AnimationTransition.in_out_cubic 1 = 1 ∧
    AnimationTransition.in_quart 0 = 0 ∧ AnimationTransition.in_quart 1 = 1 ∧
    AnimationTransition.out_quart 0 = 0 ∧ AnimationTransition.out_quart 1 = 1 ∧
    AnimationTransition.in_out_quart 0 = 0 ∧ AnimationTransition.in_out_quart 1 = 1 ∧
    AnimationTransition.in_quint 0 = 0 ∧ AnimationTransition.in_quint 1 = 1 ∧
    AnimationTransition.out_quint 0 = 0 ∧ AnimationTransition.out_quint 1 = 1 ∧
    AnimationTransition.in_out_quint 0 = 0 ∧ AnimationTransition.in_out_quint 1 = 1 ∧
    AnimationTransition.in_sine 0 = 0 ∧ AnimationTransition.in_sine 1 = 1 ∧
    AnimationTransition.out_sine 0 = 0 ∧ AnimationTransition.out_sine 1 = 1 ∧
    AnimationTransition.in_out_sine 0 = 0 ∧ AnimationTransition.in_out_sine 1 = 1 ∧
    AnimationTransition.in_expo 0 = 0 ∧ AnimationTransition.in_expo 1 = 1 ∧
    AnimationTransition.out_expo 0 = 0 ∧ AnimationTransition.out_expo 1 = 1 ∧
    AnimationTransition.in_out_expo 0 = 0 ∧ AnimationTransition.in_out_expo 1 = 1 ∧
    AnimationTransition.in_circ 0 = 0 ∧ AnimationTransition.in_circ 1 = 1 ∧
    AnimationTransition.out_circ 0 = 0 ∧ AnimationTransition.out_circ 1 = 1 ∧
    AnimationTransition.in_out_circ 0 = 0 ∧ AnimationTransition.in_out_circ 1 = 1 ∧
    AnimationTransition.in_back 0 = 0 ∧ AnimationTransition.in_back 1 = 1 ∧
    AnimationTransition.out_back 0 = 0 ∧ AnimationTransition.out_back 1 = 1 ∧
    AnimationTransition.in_out_back 0 = 0 ∧ AnimationTransition.in_out_back 1 = 1 ∧
    AnimationTransition.in_bounce 0 = 0 ∧ AnimationTransition.in_bounce 1 = 1 ∧
    AnimationTransition.out_bounce 0 = 0 ∧ AnimationTransition.out_bounce 1 = 1 ∧
    AnimationTransition.in_out_bounce 0 = 0 ∧ AnimationTransition.in_out_bounce 1 = 1 ∧
    AnimationTransition.out_elastic 0 = 0 ∧ AnimationTransition.out_elastic 1 = 1 ∧
    AnimationTransition.in_elastic 1 = 1 ∧ AnimationTransition.in_out_elastic 1 = 1 ∧
    AnimationTransition.in_elastic 0 = -(1/2048) ∧
    0 < AnimationTransition.in_out_elastic 0 ∧
    in_back_fl1 = 2 ^ 52 - 1 ∧
    (in_back_fl1 : ℚ) / 2 ^ 52 ≠ 1 ∧
    out_back_fl0 = 1 ∧
    (out_back_fl0 : ℚ) / 2 ^ 52 ≠ 0 :=
  ⟨by norm_num [AnimationTransition.linear],
   by norm_num [AnimationTransition.linear],
   by norm_num [AnimationTransition.in_quad],
   by norm_num [AnimationTransition.in_quad],
   by norm_num [AnimationTransition.out_quad],
   by norm_num [AnimationTransition.out_quad],
   by norm_num [AnimationTransition.in_out_quad],
   by norm_num [AnimationTransition.in_out_quad],
   by norm_num [AnimationTransition.in_cubic],
   by norm_num [AnimationTransition.in_cubic],
   by norm_num [AnimationTransition.out_cubic],
   by norm_num [AnimationTransition.out_cubic],
   by norm_num [AnimationTransition.in_out_cubic],
   by norm_num [AnimationTransition.in_out_cubic],
   by norm_num [AnimationTransition.in_quart],
   by norm_num [AnimationTransition.in_quart],
   by norm_num [AnimationTransition.out_quart],
   by norm_num [AnimationTransition.out_quart],
   by norm_num [AnimationTransition.in_out_quart],
   by norm_num [AnimationTransition.in_out_quart],
   by norm_num [AnimationTransition.in_quint],
   by norm_num [AnimationTransition.in_quint],
   by norm_num [AnimationTransition.out_quint],
   by norm_num [AnimationTransition.out_quint],
   by norm_num [AnimationTransition.in_out_quint],
   by norm_num [AnimationTransition.in_out_quint],
   by norm_num [AnimationTransition.in_sine, Real.cos_pi_div_two],
   by norm_num [AnimationTransition.in_sine, Real.cos_pi_div_two],
   by norm_num [AnimationTransition.out_sine, Real.sin_pi_div_two],
   by norm_num [AnimationTransition.out_sine, Real.sin_pi_div_two],
   by norm_num [AnimationTransition.in_out_sine, Real.cos_pi],
   by norm_num [AnimationTransition.in_out_sine, Real.cos_pi],
   by norm_num [AnimationTransition.in_expo, Real.rpow_zero],
   by norm_num [AnimationTransition.in_expo, Real.rpow_zero],
   by norm_num [AnimationTransition.out_expo, Real.rpow_zero],
   by norm_num [AnimationTransition.out_expo, Real.rpow_zero],
   by norm_num [AnimationTransition.in_out_expo],
   by norm_num [AnimationTransition.in_out_expo],
   by norm_num [AnimationTransition.in_circ, Real.sqrt_one, Real.sqrt_zero],
   by norm_num [AnimationTransition.in_circ, Real.sqrt_one, Real.sqrt_zero],
   by norm_num [AnimationTransition.out_circ, Real.sqrt_one, Real.sqrt_zero],
   by norm_num [AnimationTransition.out_circ, Real.sqrt_one, Real.sqrt_zero],
   by norm_num [AnimationTransition.in_out_circ, Real.sqrt_one, Real.sqrt_zero],
   by norm_num [AnimationTransition.in_out_circ, Real.sqrt_one, Real.sqrt_zero],
   by norm_num [AnimationTransition.in_back],
   by norm_num [AnimationTransition.in_back],
   by norm_num [AnimationTransition.out_back],
   by norm_num [AnimationTransition.out_back],
   by norm_num [AnimationTransition.in_out_back],
   by norm_num [AnimationTransition.in_out_back],
   by norm_num [AnimationTransition.in_bounce, AnimationTransition.in_bounce_internal,
     AnimationTransition.out_bounce_internal],
   by norm_num [AnimationTransition.in_bounce, AnimationTransition.in_bounce_internal,
     AnimationTransition.out_bounce_internal],
   by norm_num [AnimationTransition.out_bounce, AnimationTransition.out_bounce_internal],
   by norm_num [AnimationTransition.out_bounce, AnimationTransition.out_bounce_internal],
   by norm_num [AnimationTransition.in_out_bounce, AnimationTransition.in_bounce_internal,
     AnimationTransition.out_bounce_internal],
   by norm_num [AnimationTransition.in_out_bounce, AnimationTransition.in_bounce_internal,
     AnimationTransition.out_bounce_internal],
   by
     rw [AnimationTransition.out_elastic, if_neg (by norm_num : (0:ℝ) ≠ 1)]
     have e1 : (-10:ℝ) * 0 = ((0 : ℤ) : ℝ) := by norm_num
     have e2 : ((0:ℝ) - 0.3 / 4) * (2 * Real.pi) / 0.3 = -(Real.pi / 2) := by ring
     rw [e1, Real.rpow_intCast, e2, Real.sin_neg, Real.sin_pi_div_two]
     norm_num,
   by norm_num [AnimationTransition.out_elastic],
   by norm_num [AnimationTransition.in_elastic],
   by norm_num [AnimationTransition.in_out_elastic],
   in_elastic_zero_value,
   in_out_elastic_zero_pos,
   by decide,
   by rw [show in_back_fl1 = 2 ^ 52 - 1 by decide]; norm_num,
   by decide,
   by rw [show out_back_fl0 = 1 by decide]; norm_num⟩

/-- Under exact arithmetic, the `while t <= 1` loop started at `t = j/N` with
`r` samples remaining visits exactly the parameters `j/N, …, N/N` (the loop exits
by its own condition; any fuel beyond `r` suffices). -/
theorem gapLoop_eq_range (ax ay bx bY cx cy dx dy : ℚ) (N : ℕ) (hN : 1 ≤ N) :
    ∀ (r j fuel : ℕ), j + r = N + 1 → r + 1 ≤ fuel →
      gapLoop ax ay bx bY cx cy dx dy (1/(N:ℚ)) fuel ((j:ℚ)/(N:ℚ)) =
        (List.range' j r).flatMap (fun i =>
          [bernPoint ax bx cx dx ((i:ℚ)/(N:ℚ)),
           bernPoint ay bY cy dy ((i:ℚ)/(N:ℚ))]) := by
  have hNpos : (0:ℚ) < (N:ℚ) := by exact_mod_cast hN
  intro r
  induction r with
  | zero =>
    intro j fuel hj hf
    obtain ⟨f, rfl⟩ : ∃ f, fuel = f + 1 := ⟨fuel - 1, by omega⟩
    have hj' : j = N + 1 := by omega
    subst hj'
    have hgt : ¬(((N + 1 : ℕ) : ℚ)/(N:ℚ) ≤ 1) := by
      rw [div_le_one hNpos]
      push_cast
      linarith
    simp only [gapLoop]
    rw [if_neg hgt]
    simp
  | succ r ih =>
    intro j fuel hj hf
    obtain ⟨f, rfl⟩ : ∃ f, fuel = f + 1 := ⟨fuel - 1, by omega⟩
    have hle : ((j:ℚ)/(N:ℚ)) ≤ 1 := by
      rw [div_le_one hNpos]
      exact_mod_cast (by omega : j ≤ N)
    have hstep : (j:ℚ)/(N:ℚ) + 1/(N:ℚ) = ((j + 1 : ℕ):ℚ)/(N:ℚ) := by
      push_cast
      rw [div_add_div_same]
    simp only [gapLoop, if_pos hle, hstep, ih (j + 1) f (by omega) (by omega),
      List.range'_succ, List.flatMap_cons]
    simp

/-- The flattened x/y sample list over any index list has twice its length. -/
theorem flatMap_pair_length (f g : ℕ → ℚ) (l : List ℕ) :
    (l.flatMap fun i => [f i, g i]).length = 2 * l.length := by
  induction l with
  | nil => rfl
  | cons a l ih => simp [ih]; omega

/-- A Bernstein-weighted coordinate at `t = 0` is the start coordinate. -/
theorem bernPoint_zero (a b c d : ℚ) : bernPoint a b c d 0 = a := by
  norm_num [bernPoint, B0_t, B1_t, B2_t, B3_t]

/-- A Bernstein-weighted coordinate at `t = 1` is the end coordinate. -/
theorem bernPoint_one (a b c d : ℚ) : bernPoint a b c d 1 = d := by
  norm_num [bernPoint, B0_t, B1_t, B2_t, B3_t]

set_option maxRecDepth 4000 in
/-- With the default sample count `segments = 40`, the binary64 accumulation
`t += seg` makes the loop guard `t <= 1` fail after 40 iterations: the kernel
runs the rounding model and counts 40 sampled parameters. -/
theorem floatTs_forty_length : (get_all_points_ts 40).length = 40 := by decide

/-- C1 counterexample: with the default sample count `segments = 40`, the
binary64 accumulation `t += seg` makes the loop guard `t <= 1` fail after 40
iterations (the 40 accumulated additions of `fl(1/40)` overshoot 1), so
`get_all_points` returns 40 points — not the claimed `N + 1 = 41`. -/
theorem get_all_points_float_count :
    (get_all_points_ts 40).length = 40 ∧ (get_all_points_ts 40).length ≠ 41 :=
  ⟨floatTs_forty_length, by rw [floatTs_forty_length]; norm_num⟩

/-- C1 amended: under exact real arithmetic the accumulation loop of
`get_all_points` samples exactly the parameters `t = i/N`, `i = 0..N`, agreeing
with the directly-sampled version the spec describes — `N+1` points (`2(N+1)`
flattened coordinates) whose first point is the start point and whose last point
is the end point exactly; but because `t` is accumulated by repeated float
addition, under IEEE-754 binary64 arithmetic the default `segments = 40` yields
only 40 points, not 41. -/
theorem get_all_points_spec (s c1 c2 e : ℚ × ℚ) (N : ℕ) (hN : 1 ≤ N) :
    get_all_points s c1 c2 e N = specDirectSample s c1 c2 e N ∧
    (get_all_points s c1 c2 e N).length = 2 * (N + 1) ∧
    (get_all_points s c1 c2 e N).take 2 = [s.1, s.2] ∧
    (get_all_points s c1 c2 e N).drop (2 * N) = [e.1, e.2] ∧
    (get_all_points_ts 40).length = 40 := by
  have hN0 : (N:ℚ) ≠ 0 := by
    have : (0:ℚ) < (N:ℚ) := by exact_mod_cast hN
    linarith
  have heq : get_all_points s c1 c2 e N = specDirectSample s c1 c2 e N := by
    rw [get_all_points, specDirectSample]
    have h0 : (0:ℚ) = ((0:ℕ):ℚ)/(N:ℚ) := by simp
    rw [h0, gapLoop_eq_range s.1 s.2 c1.1 c1.2 c2.1 c2.2 e.1 e.2 N hN (N + 1) 0
      (N + 2) (by omega) (by omega), List.range_eq_range']
  refine ⟨heq, ?_, ?_, ?_, floatTs_forty_length⟩
  · rw [heq, specDirectSample, flatMap_pair_length]
    simp
  · rw [heq, specDirectSample, List.range_eq_range']
    obtain ⟨M, rfl⟩ : ∃ M, N = M + 1 := ⟨N - 1, by omega⟩
    rw [show M + 1 + 1 = (M + 1) + 1 from rfl, List.range'_succ, List.flatMap_cons]
    simp [bernPoint_zero]
  · rw [heq, specDirectSample, List.range_succ, List.flatMap_append]
    rw [List.drop_left' (flatMap_pair_length _ _ (List.range N) ▸ by simp)]
    simp [div_self hN0, bernPoint_one]
/-- Witness for the amended C1 at a concrete bezier and sample count. -/
theorem get_all_points_spec_witness :
    1 ≤ 2 ∧
    get_all_points ((0:ℚ), 0) (0, 0) (1, 1) (1, 1) 2 =
      specDirectSample ((0:ℚ), 0) (0, 0) (1, 1) (1, 1) 2 ∧
    (get_all_points ((0:ℚ), 0) (0, 0) (1, 1) (1, 1) 2).length = 2 * (2 + 1) :=
  ⟨by norm_num,
    (get_all_points_spec ((0:ℚ), 0) (0, 0) (1, 1) (1, 1) 2 (by norm_num)).1,
    (get_all_points_spec ((0:ℚ), 0) (0, 0) (1, 1) (1, 1) 2 (by norm_num)).2.1⟩

/-- Witness for C10 at a concrete input of length 2. -/
theorem find_center_spec_witness :
    ([(1 : ℚ), 2].Sorted (· ≤ ·) ∧ [(1 : ℚ), 2] ≠ []) ∧
    find_center [(1 : ℚ), 2] = [(1 : ℚ), 2].getD ([(1 : ℚ), 2].length / 2 - 1) 0 := by
  have h := find_center_spec [(1 : ℚ), 2] (by simp) (by simp)
  exact ⟨⟨by simp, by simp⟩, h.2.1 (by norm_num)⟩

end Kivg
